import Mathlib

/-!
Verification of the gesture-stabilization core of the hand-controlled robot.

The definitions below are a shallow embedding of the Gesture Smoother
(`HandGestureController.smooth_gesture`) and the Stability Gate (the
per-frame block inside `HandGestureController.run`, together with the
explicit reset handler for the r key) from
`src/hand_gesture_controller.py`.  Display-only attributes of the Python
class (`current_gesture`, `gesture_changed`, `last_command_sent`) do not
feed back into the control flow and are not modelled; the four attributes
`servo_position`, `last_stable_gesture`, `gesture_stable_count` and
`servo_hold_timer` are the gate state.
-/

/-- The per-frame gesture labels used throughout the controller
(`"FIST"`, `"OPEN"`, `"UNKNOWN"` in the source). -/
inductive Gesture where
  | FIST
  | OPEN
  | UNKNOWN
deriving DecidableEq, Repr

open Gesture

/-- The mutable state of the Stability Gate: the four attributes of
`HandGestureController` that drive the hold/stability logic. -/
structure GateState where
  servoPosition : Gesture
  lastStableGesture : Gesture
  stableCount : Nat
  holdTimer : Nat
deriving DecidableEq, Repr

/-- Constructor-time configuration of the gate
(`self.stability_threshold`, `self.hold_delay`). -/
structure Config where
  stabilityThreshold : Nat
  holdDelay : Nat
deriving DecidableEq, Repr

/-- The values set in `HandGestureController.__init__`:
`stability_threshold = 3`, `hold_delay = 20`. -/
def defaultConfig : Config := ⟨3, 20⟩

/-- The initial gate state from `__init__`: `servo_position = "UNKNOWN"`,
`last_stable_gesture = "UNKNOWN"`, `gesture_stable_count = 0`,
`servo_hold_timer = 0`. -/
def initState : GateState := ⟨UNKNOWN, UNKNOWN, 0, 0⟩

/-- One per-frame step of the Stability Gate: the block of
`HandGestureController.run` that starts at
`if gesture != "UNKNOWN":`.  Returns the new state and the command sent
to the servo during that frame (if any).  Faithful to the source order:
the hold timer is decremented first, and the transition is evaluated
whenever the timer is zero after that decrement. -/
def advance (cfg : Config) (s : GateState) (gesture : Gesture) :
    GateState × Option Gesture :=
  if gesture ≠ UNKNOWN then
    -- if self.servo_hold_timer > 0: self.servo_hold_timer -= 1
    let t := if s.holdTimer > 0 then s.holdTimer - 1 else s.holdTimer
    -- if self.servo_hold_timer == 0:
    if t = 0 then
      -- if gesture != self.last_stable_gesture:
      if gesture ≠ s.lastStableGesture then
        -- self.gesture_stable_count += 1
        let c := s.stableCount + 1
        -- if self.gesture_stable_count >= self.stability_threshold:
        if c ≥ cfg.stabilityThreshold then
          -- self.last_stable_gesture = gesture, then the servo if/elif
          if gesture = FIST ∧ s.servoPosition ≠ FIST then
            (⟨FIST, gesture, c, cfg.holdDelay⟩, some FIST)
          else if gesture = OPEN ∧ s.servoPosition ≠ OPEN then
            (⟨OPEN, gesture, c, cfg.holdDelay⟩, some OPEN)
          else
            (⟨s.servoPosition, gesture, c, t⟩, none)
        else
          (⟨s.servoPosition, s.lastStableGesture, c, t⟩, none)
      else
        -- else: self.gesture_stable_count = 0
        (⟨s.servoPosition, s.lastStableGesture, 0, t⟩, none)
    else
      (⟨s.servoPosition, s.lastStableGesture, s.stableCount, t⟩, none)
  else
    -- else: no hand detected, reset the stability counter
    (⟨s.servoPosition, s.lastStableGesture, 0, s.holdTimer⟩, none)

/-- The explicit reset handler (the r key in `run`): sends `"OPEN"`
unconditionally and resets the gate state. -/
def resetGate (_s : GateState) : GateState × Option Gesture :=
  (⟨OPEN, OPEN, 0, 0⟩, some OPEN)

/-- Runs `advance` over a list of smoothed labels, collecting the final
state and the per-frame outputs in order. -/
def runAdvance (cfg : Config) : GateState → List Gesture →
    GateState × List (Option Gesture)
  | s, [] => (s, [])
  | s, g :: gs =>
      let p := advance cfg s g
      let q := runAdvance cfg p.1 gs
      (q.1, p.2 :: q.2)

/-- The states the controller can be in: the initial state, closed under
per-frame `advance` steps and explicit resets. -/
inductive Reachable (cfg : Config) : GateState → Prop where
  | init : Reachable cfg initState
  | step (s : GateState) (g : Gesture) (h : Reachable cfg s) :
      Reachable cfg (advance cfg s g).1
  | reset (s : GateState) (h : Reachable cfg s) :
      Reachable cfg (resetGate s).1

/-- The length bound on the gesture history (`self.history_size = 5`). -/
def historySize : Nat := 5

/-- The smoothing quorum (`self.fist_threshold = 0.6`).  The Python value
is the IEEE double nearest to 0.6; every comparison the source performs
with it is `count / 5 >= 0.6` for an integer `count`, and rounding of
`count / 5` and of the literal `0.6` is exact enough that the double
comparison agrees with the rational one, so the rational 6/10 is a
faithful model. -/
def fistThreshold : ℚ := 6 / 10

/-- One call of `HandGestureController.smooth_gesture`: appends the raw
label to the history, evicts the oldest entry once the length exceeds
`history_size`, and returns the new history together with the smoothed
label.  The minimum-history check is the literal `5` of the source
(`if len(self.gesture_history) < 5`), not `history_size`. -/
def smooth_gesture (hist : List Gesture) (raw : Gesture) :
    List Gesture × Gesture :=
  -- self.gesture_history.append(raw_gesture)
  let h1 := hist ++ [raw]
  -- if len(self.gesture_history) > self.history_size: pop(0)
  let h2 := if h1.length > historySize then h1.tail else h1
  -- if len(self.gesture_history) < 5: return raw_gesture
  if h2.length < 5 then (h2, raw)
  else
    let fistCount := h2.count FIST
    let openCount := h2.count OPEN
    let total := h2.length
    let fistPct : ℚ := fistCount / total
    let openPct : ℚ := openCount / total
    if fistPct ≥ fistThreshold then (h2, FIST)
    else if openPct ≥ fistThreshold then (h2, OPEN)
    else (h2, raw)

/-- Runs `smooth_gesture` over a list of raw labels from a given history,
collecting the final history and the smoothed outputs in order. -/
def runSmooth : List Gesture → List Gesture → List Gesture × List Gesture
  | hist, [] => (hist, [])
  | hist, g :: gs =>
      let p := smooth_gesture hist g
      let q := runSmooth p.1 gs
      (q.1, p.2 :: q.2)

/-- The exact condition under which a call to `advance` commits a
transition (reaches the `self.last_stable_gesture = gesture` line of the
source): non-UNKNOWN input, hold timer at most 1 on entry (the source
decrements before testing `== 0`), input differing from
`lastStableGesture`, and the incremented counter reaching the
threshold. -/
def commitCond (cfg : Config) (s : GateState) (g : Gesture) : Prop :=
  g ≠ UNKNOWN ∧ s.holdTimer ≤ 1 ∧ g ≠ s.lastStableGesture ∧
    cfg.stabilityThreshold ≤ s.stableCount + 1

instance (cfg : Config) (s : GateState) (g : Gesture) :
    Decidable (commitCond cfg s g) := by
  unfold commitCond
  infer_instance

/-- The inductive invariant of the gate: `lastStableGesture` always
agrees with `servoPosition`, and the stability counter is below the
threshold whenever no hold is pending. -/
def GateInv (cfg : Config) (s : GateState) : Prop :=
  s.lastStableGesture = s.servoPosition ∧
    (s.holdTimer = 0 → s.stableCount < cfg.stabilityThreshold)

/-- C4: With the default configuration (threshold 3, hold delay 20) and
the initial state, the smoothed sequence FIST ×3 makes the 3rd call emit
FIST, the next 20 FIST frames all emit nothing, and OPEN ×3 afterwards
makes its 3rd call emit OPEN. -/
theorem c4_end_to_end_scenario :
    (runAdvance defaultConfig initState
        (List.replicate 3 FIST ++ List.replicate 20 FIST ++
         List.replicate 3 OPEN)).2 =
      [none, none, some FIST] ++ List.replicate 20 none ++
        [none, none, some OPEN] := by
  decide

/-- C7: For every configuration and every gate state, an `advance` call
with smoothed input UNKNOWN emits nothing and resets `stableCount` to 0,
leaving `servoPosition`, `lastStableGesture` and `holdTimer` untouched,
regardless of their prior values. -/
theorem c7_unknown_resets_counter (cfg : Config) (s : GateState) :
    advance cfg s UNKNOWN =
      (⟨s.servoPosition, s.lastStableGesture, 0, s.holdTimer⟩, none) := by
  rfl

/-- C9: From every gate state, the explicit reset emits OPEN
unconditionally (even when `servoPosition` is already OPEN) and leaves
`servoPosition = OPEN`, `lastStableGesture = OPEN`, `stableCount = 0`,
`holdTimer = 0`. -/
theorem c9_reset_unconditional (s : GateState) :
    resetGate s = (⟨OPEN, OPEN, 0, 0⟩, some OPEN) := by
  rfl

theorem advance_hold_skip (cfg : Config) (s : GateState) (g : Gesture)
    (hg : g ≠ UNKNOWN) (ht : 2 ≤ s.holdTimer) :
    advance cfg s g =
      (⟨s.servoPosition, s.lastStableGesture, s.stableCount,
        s.holdTimer - 1⟩, none) := by
  have h1 : s.holdTimer > 0 := by omega
  have h2 : ¬(s.holdTimer - 1 = 0) := by omega
  simp [advance, hg, h1, h2]

theorem runAdvance_hold (cfg : Config) (gs : List Gesture) :
    ∀ s : GateState, (∀ g ∈ gs, g ≠ UNKNOWN) →
      gs.length + 1 ≤ s.holdTimer →
      runAdvance cfg s gs =
        (⟨s.servoPosition, s.lastStableGesture, s.stableCount,
          s.holdTimer - gs.length⟩, List.replicate gs.length none) := by
  induction gs with
  | nil =>
      intro s _ _
      simp [runAdvance]
  | cons g gs ih =>
      intro s hall ht
      have hg : g ≠ UNKNOWN := hall g (by simp)
      have hskip := advance_hold_skip cfg s g hg (by simp at ht; omega)
      have hrec := ih
        ⟨s.servoPosition, s.lastStableGesture, s.stableCount,
          s.holdTimer - 1⟩
        (fun x hx => hall x (List.mem_cons_of_mem g hx))
        (by simp at ht ⊢; omega)
      simp only [runAdvance, hskip, hrec, List.length_cons,
        List.replicate_succ]
      have harith : s.holdTimer - 1 - gs.length =
          s.holdTimer - (gs.length + 1) := by omega
      rw [harith]

set_option maxRecDepth 4000 in
/-- C1 (counterexample): from the initial state, 22 smoothed FIST frames
leave the gate in a reachable state whose `holdTimer` equals 1 — so it is
positive on entry — and yet the next `advance` call, with smoothed input
OPEN, returns the confirmed command OPEN.  The source decrements the
timer before testing it against 0, so the frame on which the timer drops
from 1 to 0 is already evaluated. -/
theorem c1_counterexample :
    (runAdvance defaultConfig initState
        (List.replicate 22 FIST)).1.holdTimer = 1 ∧
    0 < (runAdvance defaultConfig initState
        (List.replicate 22 FIST)).1.holdTimer ∧
    (advance defaultConfig
        (runAdvance defaultConfig initState (List.replicate 22 FIST)).1
        OPEN).2 = some OPEN := by
  decide

/-- C1 (amended): `advance` returns no command on any call entered with
`holdTimer ≥ 2`, and after a commit (which sets `holdTimer = holdDelay`)
exactly `holdDelay - 1` subsequent calls with non-UNKNOWN input return
none solely because of the hold, leaving the state otherwise untouched
with `holdTimer = 1`; the `holdDelay`-th call is already evaluated. -/
theorem c1_hold_suppression (cfg : Config) (s : GateState) (g : Gesture)
    (gs : List Gesture) :
    (2 ≤ s.holdTimer → (advance cfg s g).2 = none) ∧
    (s.holdTimer = cfg.holdDelay → 1 ≤ cfg.holdDelay →
      gs.length = cfg.holdDelay - 1 → (∀ x ∈ gs, x ≠ UNKNOWN) →
      runAdvance cfg s gs =
        (⟨s.servoPosition, s.lastStableGesture, s.stableCount, 1⟩,
         List.replicate (cfg.holdDelay - 1) none)) := by
  constructor
  · intro ht
    by_cases hg : g = UNKNOWN
    · subst hg
      rfl
    · rw [advance_hold_skip cfg s g hg ht]
  · intro hs hd hlen hall
    rw [runAdvance_hold cfg gs s hall (by omega)]
    rw [hlen, hs]
    have harith : cfg.holdDelay - (cfg.holdDelay - 1) = 1 := by omega
    rw [harith]

/-- C1 (witness): the amended theorem applied at the concrete post-commit
state reached in `c1_counterexample` — a state holding FIST with
`stableCount = 3` and a freshly started hold of 20 frames. -/
theorem c1_hold_suppression_witness :
    (advance defaultConfig (⟨FIST, FIST, 3, 20⟩ : GateState) OPEN).2 =
      none ∧
    runAdvance defaultConfig (⟨FIST, FIST, 3, 20⟩ : GateState)
        (List.replicate 19 FIST) =
      (⟨FIST, FIST, 3, 1⟩, List.replicate 19 none) := by
  refine ⟨(c1_hold_suppression defaultConfig ⟨FIST, FIST, 3, 20⟩ OPEN
      (List.replicate 19 FIST)).1 (by decide),
    (c1_hold_suppression defaultConfig ⟨FIST, FIST, 3, 20⟩ OPEN
      (List.replicate 19 FIST)).2 rfl (by decide) (by decide) ?_⟩
  intro x hx
  have := List.eq_of_mem_replicate hx
  subst this
  decide

theorem gateInv_advance (cfg : Config) (s : GateState) (g : Gesture)
    (hthr : 0 < cfg.stabilityThreshold) (hd : 0 < cfg.holdDelay)
    (inv : GateInv cfg s) : GateInv cfg (advance cfg s g).1 := by
  obtain ⟨heq, hcnt⟩ := inv
  cases g <;>
    simp only [advance, GateInv] <;>
    split_ifs <;>
    simp_all <;>
    omega

theorem gateInv_reset (cfg : Config) (s : GateState)
    (hthr : 0 < cfg.stabilityThreshold) :
    GateInv cfg (resetGate s).1 :=
  ⟨rfl, fun _ => hthr⟩

theorem reachable_gateInv (cfg : Config) (s : GateState)
    (hthr : 0 < cfg.stabilityThreshold) (hd : 0 < cfg.holdDelay)
    (h : Reachable cfg s) : GateInv cfg s := by
  induction h with
  | init => exact ⟨rfl, fun _ => hthr⟩
  | step t g ht ih => exact gateInv_advance cfg t g hthr hd ih
  | reset t ht ih => exact gateInv_reset cfg t hthr

theorem advance_stableCount_le (cfg : Config) (s : GateState)
    (g : Gesture) :
    (advance cfg s g).1.stableCount ≤ s.stableCount + 1 := by
  cases g <;>
    simp only [advance] <;>
    split_ifs <;>
    simp

set_option maxRecDepth 4000 in
/-- C2 (counterexample): a commit does not reset `stableCount`, so the
counter survives the hold and the next qualifying frame pushes it past
the threshold: from the initial state, 22 FIST frames followed by one
OPEN frame reach a state with `stableCount = 4`, exceeding the
configured threshold 3. -/
theorem c2_counterexample :
    (runAdvance defaultConfig initState
        (List.replicate 22 FIST ++ [OPEN])).1.stableCount = 4 ∧
    defaultConfig.stabilityThreshold <
      (runAdvance defaultConfig initState
        (List.replicate 22 FIST ++ [OPEN])).1.stableCount := by
  decide

/-- C2 (amended): in every reachable state, `stableCount` is strictly
below the threshold whenever `holdTimer = 0` — the counter only exceeds
the threshold during a hold-off, because a commit (which starts the
hold) does not reset it; moreover each `advance` call grows the counter
by at most 1. -/
theorem c2_count_bound (s : GateState)
    (h : Reachable defaultConfig s) :
    (s.holdTimer = 0 →
      s.stableCount < defaultConfig.stabilityThreshold) ∧
    ∀ g, (advance defaultConfig s g).1.stableCount ≤ s.stableCount + 1 := by
  refine ⟨(reachable_gateInv defaultConfig s (by decide) (by decide) h).2,
    fun g => advance_stableCount_le defaultConfig s g⟩

/-- C2 (witness): the amended theorem applied at the initial state, which
is reachable and has no pending hold. -/
theorem c2_count_bound_witness :
    (initState.stableCount < defaultConfig.stabilityThreshold) ∧
    (advance defaultConfig initState FIST).1.stableCount ≤
      initState.stableCount + 1 :=
  ⟨(c2_count_bound initState Reachable.init).1 rfl,
   (c2_count_bound initState Reachable.init).2 FIST⟩

/-- C3 (counterexample): from the initial state, the smoothed frames
FIST, OPEN, FIST make the 3rd call return the confirmed command FIST,
although the three qualifying frames preceding and including the commit
were not all FIST — the second carried OPEN.  The counter counts frames
that differ from `lastStableGesture`, not consecutive occurrences of one
label. -/
theorem c3_counterexample :
    (runAdvance defaultConfig initState [FIST, OPEN, FIST]).2 =
      [none, none, some FIST] ∧
    (OPEN : Gesture) ≠ FIST := by
  decide

set_option maxHeartbeats 1000000 in
/-- C3 (amended): a confirmed command always carries the label of the
frame that triggered it, that frame differs from `lastStableGesture`,
and the incremented counter has reached the threshold; and the counter
is incremented exactly on the evaluated calls whose non-UNKNOWN input
differs from the then-current `lastStableGesture` — so the qualifying
frames backing a commit each differed from `lastStableGesture` at their
time, but need not all equal the confirmed label. -/
theorem c3_qualifying_frames (cfg : Config) (s : GateState)
    (g : Gesture) :
    (∀ c, (advance cfg s g).2 = some c →
      c = g ∧ g ≠ s.lastStableGesture ∧
        cfg.stabilityThreshold ≤ s.stableCount + 1) ∧
    ((advance cfg s g).1.stableCount = s.stableCount + 1 ↔
      (g ≠ UNKNOWN ∧ s.holdTimer ≤ 1 ∧ g ≠ s.lastStableGesture)) := by
  obtain ⟨sp, lg, sc, ht⟩ := s
  cases g <;>
    simp only [advance] <;>
    split_ifs <;>
    simp_all <;>
    omega

/-- C3 (witness): the amended theorem applied at a state two qualifying
frames deep, where a FIST input commits: the command is the triggering
frame's label FIST, differing from `lastStableGesture = UNKNOWN`, with
the counter at the threshold; and that call indeed increments the
counter. -/
theorem c3_qualifying_frames_witness :
    (FIST = FIST ∧
      FIST ≠ (⟨UNKNOWN, UNKNOWN, 2, 0⟩ : GateState).lastStableGesture ∧
      defaultConfig.stabilityThreshold ≤ 2 + 1) ∧
    (advance defaultConfig (⟨UNKNOWN, UNKNOWN, 2, 0⟩ : GateState)
        FIST).1.stableCount = 2 + 1 :=
  ⟨(c3_qualifying_frames defaultConfig ⟨UNKNOWN, UNKNOWN, 2, 0⟩
      FIST).1 FIST (by decide),
   (c3_qualifying_frames defaultConfig ⟨UNKNOWN, UNKNOWN, 2, 0⟩
      FIST).2.mpr (by decide)⟩

set_option maxHeartbeats 1000000 in
theorem advance_some_iff (cfg : Config) (s : GateState) (g : Gesture) :
    (advance cfg s g).2 = some g ↔
      commitCond cfg s g ∧ g ≠ s.servoPosition := by
  obtain ⟨sp, lg, sc, ht⟩ := s
  cases g <;>
    simp only [advance, commitCond] <;>
    split_ifs <;>
    simp_all <;>
    first
      | omega
      | (exfalso; omega)
      | (intros; exfalso; omega)
      | (refine ⟨by omega, fun hx => ?_⟩; simp_all)
      | (intro hx; simp_all)

set_option maxHeartbeats 1000000 in
theorem advance_out_label (cfg : Config) (s : GateState) (g : Gesture) :
    ∀ c, (advance cfg s g).2 = some c → c = g := by
  obtain ⟨sp, lg, sc, ht⟩ := s
  cases g <;>
    simp only [advance] <;>
    split_ifs <;>
    simp_all

set_option maxHeartbeats 1000000 in
theorem advance_none_servo (cfg : Config) (s : GateState) (g : Gesture)
    (h : (advance cfg s g).2 = none) :
    (advance cfg s g).1.servoPosition = s.servoPosition := by
  obtain ⟨sp, lg, sc, ht⟩ := s
  revert h
  cases g <;>
    simp only [advance] <;>
    split_ifs <;>
    simp_all

/-- C8 (counterexample): after one explicit reset the controller is in a
reachable state with `servoPosition = OPEN`; a second reset still
dispatches a command although its confirmed gesture OPEN equals
`servoPosition` — so dispatching is not equivalent to the confirmed
gesture differing from `servoPosition` once resets are included. -/
theorem c8_counterexample :
    (resetGate initState).1.servoPosition = OPEN ∧
    (resetGate (resetGate initState).1).2 = some OPEN := by
  decide

/-- C8 (amended): for per-frame `advance` calls the equivalence holds — a
command is dispatched exactly when the call commits a confirmed gesture
differing from `servoPosition`, the dispatched command is that gesture,
and whenever nothing is dispatched (in particular when a confirmed
gesture equals `servoPosition`) the servo position is unchanged; the
explicit reset, however, dispatches OPEN unconditionally. -/
theorem c8_dispatch_iff (cfg : Config) (s : GateState) (g : Gesture) :
    ((advance cfg s g).2 = some g ↔
      commitCond cfg s g ∧ g ≠ s.servoPosition) ∧
    (∀ c, (advance cfg s g).2 = some c → c = g) ∧
    ((advance cfg s g).2 = none →
      (advance cfg s g).1.servoPosition = s.servoPosition) ∧
    (∀ t : GateState, (resetGate t).2 = some OPEN) := by
  exact ⟨advance_some_iff cfg s g, advance_out_label cfg s g,
    advance_none_servo cfg s g, fun t => rfl⟩

/-- C8 (witness): the amended theorem applied at a concrete state with no
pending hold and two accumulated qualifying frames: a FIST input with the
servo at OPEN dispatches, the dispatched label is FIST, an OPEN input (no
dispatch, since OPEN equals the servo position) leaves the servo
untouched, and the reset dispatches OPEN. -/
theorem c8_dispatch_iff_witness :
    (advance defaultConfig (⟨OPEN, OPEN, 2, 0⟩ : GateState) FIST).2 =
      some FIST ∧
    (advance defaultConfig (⟨OPEN, OPEN, 2, 0⟩ : GateState)
        FIST).1.servoPosition = FIST ∧
    (advance defaultConfig (⟨OPEN, OPEN, 2, 0⟩ : GateState)
        OPEN).1.servoPosition = OPEN ∧
    (resetGate (⟨OPEN, OPEN, 2, 0⟩ : GateState)).2 = some OPEN := by
  refine ⟨(c8_dispatch_iff defaultConfig ⟨OPEN, OPEN, 2, 0⟩
      FIST).1.mpr (by decide), by decide,
    (c8_dispatch_iff defaultConfig ⟨OPEN, OPEN, 2, 0⟩ OPEN).2.2.1
      (by decide),
    (c8_dispatch_iff defaultConfig ⟨OPEN, OPEN, 2, 0⟩ OPEN).2.2.2
      ⟨OPEN, OPEN, 2, 0⟩⟩

theorem reachable_runAdvance (cfg : Config) (gs : List Gesture) :
    ∀ s : GateState, Reachable cfg s →
      Reachable cfg (runAdvance cfg s gs).1 := by
  induction gs with
  | nil => intro s hs; exact hs
  | cons g gs ih =>
      intro s hs
      exact ih (advance cfg s g).1 (Reachable.step s g hs)

set_option maxRecDepth 4000 in
/-- C10 (counterexample): the post-commit counter does not always
persist to the end of the hold.  After FIST ×3 (commit, counter 3) and
FIST ×20 (hold), the 20th hold frame is already evaluated — its FIST
input equals `lastStableGesture`, so the counter is reset to 0 — and the
very next call, the first one after `holdTimer` reached 0 whose
non-UNKNOWN input OPEN differs from `lastStableGesture = FIST`, returns
none instead of an immediate confirmed command. -/
theorem c10_counterexample :
    (runAdvance defaultConfig initState
        (List.replicate 23 FIST)).1.holdTimer = 0 ∧
    (runAdvance defaultConfig initState
        (List.replicate 23 FIST)).1.lastStableGesture = FIST ∧
    (runAdvance defaultConfig initState
        (List.replicate 23 FIST)).1.stableCount = 0 ∧
    (advance defaultConfig
        (runAdvance defaultConfig initState (List.replicate 23 FIST)).1
        OPEN).2 = none := by
  decide

/-- C10 (amended): a committing call increments `stableCount` rather
than resetting it, leaving it at or above the threshold; frames during
the hold (entry `holdTimer ≥ 2`, non-UNKNOWN input) keep the counter
untouched and emit nothing; but the counter can still be reset before
evaluation resumes (by an UNKNOWN frame, or by the expiry frame itself
when its input repeats `lastStableGesture`), so the single-frame
re-commit holds exactly for the reachable states whose counter is still
at the threshold once the hold has expired: there, the first evaluated
call (entry `holdTimer ≤ 1`) whose non-UNKNOWN input differs from
`lastStableGesture` immediately returns the confirmed command for that
label. -/
theorem c10_immediate_recommit (cfg : Config) (s : GateState)
    (g : Gesture) :
    (commitCond cfg s g →
      (advance cfg s g).1.stableCount = s.stableCount + 1 ∧
      cfg.stabilityThreshold ≤ (advance cfg s g).1.stableCount) ∧
    (g ≠ UNKNOWN → 2 ≤ s.holdTimer →
      (advance cfg s g).1.stableCount = s.stableCount ∧
      (advance cfg s g).2 = none) ∧
    (Reachable cfg s → 0 < cfg.stabilityThreshold → 0 < cfg.holdDelay →
      cfg.stabilityThreshold ≤ s.stableCount → s.holdTimer ≤ 1 →
      g ≠ UNKNOWN → g ≠ s.lastStableGesture →
      (advance cfg s g).2 = some g) := by
  refine ⟨?_, ?_, ?_⟩
  · intro hc
    obtain ⟨hg, ht, hl, hn⟩ := hc
    obtain ⟨sp, lg, sc, htv⟩ := s
    revert hg ht hl hn
    cases g <;>
      simp only [advance] <;>
      split_ifs <;>
      simp_all <;>
      omega
  · intro hg ht
    rw [advance_hold_skip cfg s g hg ht]
    exact ⟨rfl, rfl⟩
  · intro hr hthr hd hcnt ht hg hl
    have hinv := reachable_gateInv cfg s hthr hd hr
    have hsv : g ≠ s.servoPosition := by
      rw [← hinv.1]
      exact hl
    exact (advance_some_iff cfg s g).mpr
      ⟨⟨hg, ht, hl, by omega⟩, hsv⟩

set_option maxRecDepth 4000 in
/-- C10 (witness): the theorem applied at the reachable state obtained
from the initial state by 22 FIST frames (counter 3, hold timer 1,
holding FIST): commit conditions for the original FIST commit, hold
preservation mid-hold, and the immediate OPEN re-commit on the first
evaluated frame. -/
theorem c10_immediate_recommit_witness :
    ((advance defaultConfig (⟨UNKNOWN, UNKNOWN, 2, 0⟩ : GateState)
        FIST).1.stableCount = 2 + 1 ∧
      defaultConfig.stabilityThreshold ≤
        (advance defaultConfig (⟨UNKNOWN, UNKNOWN, 2, 0⟩ : GateState)
          FIST).1.stableCount) ∧
    ((advance defaultConfig (⟨FIST, FIST, 3, 20⟩ : GateState)
        OPEN).1.stableCount = 3 ∧
      (advance defaultConfig (⟨FIST, FIST, 3, 20⟩ : GateState)
        OPEN).2 = none) ∧
    (advance defaultConfig
        (runAdvance defaultConfig initState (List.replicate 22 FIST)).1
        OPEN).2 = some OPEN := by
  refine ⟨(c10_immediate_recommit defaultConfig ⟨UNKNOWN, UNKNOWN, 2, 0⟩
      FIST).1 (by decide),
    (c10_immediate_recommit defaultConfig ⟨FIST, FIST, 3, 20⟩
      OPEN).2.1 (by decide) (by decide),
    (c10_immediate_recommit defaultConfig
        (runAdvance defaultConfig initState (List.replicate 22 FIST)).1
        OPEN).2.2
      (reachable_runAdvance defaultConfig (List.replicate 22 FIST)
        initState Reachable.init)
      (by decide) (by decide) (by decide) (by decide) (by decide)
      (by decide)⟩

theorem quorum_iff (c : Nat) : fistThreshold ≤ (c : ℚ) / 5 ↔ 3 ≤ c := by
  rw [fistThreshold, div_le_div_iff₀ (by norm_num) (by norm_num)]
  constructor
  · intro h
    have h2 : (30 : ℕ) ≤ c * 10 := by exact_mod_cast h
    omega
  · intro h
    have h2 : (30 : ℕ) ≤ c * 10 := by omega
    exact_mod_cast h2

/-- C5: once the history is at full capacity after the append (entry
length 4 or 5, hence 5 after the update), the smoothed label is FIST
exactly when the FIST count of the 5-frame window reaches 3 — the count
whose fraction 3/5 sits exactly at the 0.6 threshold, qualifying because
the comparison is `>=` — else OPEN on the analogous OPEN quorum, else
the most recent raw label; UNKNOWN is never forced. -/
theorem c5_full_capacity (hist : List Gesture) (raw : Gesture)
    (h : hist.length = 4 ∨ hist.length = 5) :
    (smooth_gesture hist raw).2 =
      (if 3 ≤ (smooth_gesture hist raw).1.count FIST then FIST
       else if 3 ≤ (smooth_gesture hist raw).1.count OPEN then OPEN
       else raw) ∧
    ((smooth_gesture hist raw).2 = UNKNOWN → raw = UNKNOWN) ∧
    (smooth_gesture hist raw).1.length = 5 := by
  simp only [smooth_gesture]
  set upd := if (hist ++ [raw]).length > historySize
    then (hist ++ [raw]).tail else hist ++ [raw] with hupd
  have hlen : upd.length = 5 := by
    rw [hupd]
    obtain h4 | h5 := h
    · rw [if_neg (by simp [historySize, h4])]
      simp [h4]
    · rw [if_pos (by simp [historySize, h5])]
      simp [h5]
  rw [if_neg (by rw [hlen]; norm_num)]
  rw [hlen]
  simp only [ge_iff_le, Nat.cast_ofNat, quorum_iff]
  split_ifs <;> simp_all

/-- C5 (witness): the theorem applied to a full 5-frame history: after
appending FIST and evicting the oldest frame the window holds three
FISTs, so the quorum comparison (exactly at the 0.6 threshold)
qualifies. -/
theorem c5_full_capacity_witness :
    ([FIST, FIST, OPEN, FIST, OPEN] : List Gesture).length = 5 ∧
    ((smooth_gesture [FIST, FIST, OPEN, FIST, OPEN] FIST).2 =
      (if 3 ≤ (smooth_gesture [FIST, FIST, OPEN, FIST, OPEN]
            FIST).1.count FIST then FIST
       else if 3 ≤ (smooth_gesture [FIST, FIST, OPEN, FIST, OPEN]
            FIST).1.count OPEN then OPEN
       else FIST) ∧
     ((smooth_gesture [FIST, FIST, OPEN, FIST, OPEN] FIST).2 =
        UNKNOWN → FIST = UNKNOWN) ∧
     (smooth_gesture [FIST, FIST, OPEN, FIST, OPEN] FIST).1.length = 5) :=
  ⟨rfl, c5_full_capacity [FIST, FIST, OPEN, FIST, OPEN] FIST (Or.inr rfl)⟩

theorem smooth_gesture_fst (hist : List Gesture) (raw : Gesture) :
    (smooth_gesture hist raw).1 =
      if (hist ++ [raw]).length > historySize then (hist ++ [raw]).tail
      else hist ++ [raw] := by
  simp only [smooth_gesture]
  split_ifs <;> rfl

theorem smooth_len (hist : List Gesture) (raw : Gesture)
    (h : hist.length ≤ 5) :
    (smooth_gesture hist raw).1.length = min (hist.length + 1) 5 := by
  rw [smooth_gesture_fst]
  rcases Nat.lt_or_ge hist.length 5 with h5 | h5
  · rw [if_neg (by simp only [historySize, List.length_append,
      List.length_singleton]; omega)]
    simp
    omega
  · have h5e : hist.length = 5 := by omega
    rw [if_pos (by simp [historySize, h5e])]
    simp [h5e]

theorem smooth_raw (hist : List Gesture) (raw : Gesture)
    (h : hist.length < 4) :
    (smooth_gesture hist raw).2 = raw := by
  have hno : ¬((hist ++ [raw]).length > historySize) := by
    simp only [historySize, List.length_append, List.length_singleton]
    omega
  have hlt : (hist ++ [raw]).length < 5 := by
    simp only [List.length_append, List.length_singleton]
    omega
  simp only [smooth_gesture, if_neg hno, if_pos hlt]

theorem runSmooth_echo (gs : List Gesture) :
    ∀ hist : List Gesture, hist.length + gs.length ≤ 4 →
      (runSmooth hist gs).2 = gs := by
  induction gs with
  | nil => intro hist _; rfl
  | cons g gs ih =>
      intro hist h
      simp only [List.length_cons] at h
      simp only [runSmooth]
      rw [smooth_raw hist g (by omega)]
      rw [ih (smooth_gesture hist g).1
        (by rw [smooth_len hist g (by omega)]; omega)]

theorem runSmooth_len (gs : List Gesture) :
    ∀ hist : List Gesture, hist.length + gs.length ≤ 5 →
      (runSmooth hist gs).1.length = hist.length + gs.length := by
  induction gs with
  | nil => intro hist _; simp [runSmooth]
  | cons g gs ih =>
      intro hist h
      simp only [List.length_cons] at h
      simp only [runSmooth, List.length_cons]
      have hlen : (smooth_gesture hist g).1.length = hist.length + 1 := by
        rw [smooth_len hist g (by omega)]
        omega
      rw [ih (smooth_gesture hist g).1 (by rw [hlen]; omega)]
      rw [hlen]
      omega

/-- C6: on a freshly initialized smoother (empty history), every input
sequence of at most `historySize - 1 = 4` raw labels is echoed back
unchanged (insufficient history), and for any sequence of at most 5
labels the history length after all calls equals the number of calls —
the oldest entry is evicted only once the length would exceed 5. -/
theorem c6_warmup (gs : List Gesture) :
    (gs.length ≤ 4 → (runSmooth [] gs).2 = gs) ∧
    (gs.length ≤ 5 → (runSmooth [] gs).1.length = gs.length) := by
  constructor
  · intro h
    exact runSmooth_echo gs [] (by simpa using h)
  · intro h
    have hres := runSmooth_len gs [] (by simpa using h)
    simpa using hres

/-- C6 (witness): the theorem applied to a concrete 4-label sequence:
all four raw labels come back unchanged and the history holds exactly
the four observations. -/
theorem c6_warmup_witness :
    (runSmooth [] [FIST, OPEN, UNKNOWN, OPEN]).2 =
      [FIST, OPEN, UNKNOWN, OPEN] ∧
    (runSmooth [] [FIST, OPEN, UNKNOWN, OPEN]).1.length = 4 :=
  ⟨(c6_warmup [FIST, OPEN, UNKNOWN, OPEN]).1 (by decide),
   (c6_warmup [FIST, OPEN, UNKNOWN, OPEN]).2 (by decide)⟩

